import Mathlib

/-!
Verification of the node-lifecycle-and-remote-execution core of the
voice-orchestrator repository (src/voice_orchestrator/runpod.py and the
constants/CLI modules that feed it), shallowly embedded in Lean.

Python values that may be `None` are modelled as `Option`; Python truthiness
of such values is made explicit (`None`, the empty string and the integer 0
are falsy).  Python code that can raise is modelled with `Except PyError`.
-/

/-- Exceptions the embedded Python fragments can raise: `KeyError` from a
dict subscription and `AttributeError` from a missing class attribute. -/
inductive PyError where
  | keyError (key : String)
  | attributeError (attr : String)
deriving DecidableEq, Repr

/-- Python truthiness of an `str | None` value: `None` and `""` are falsy. -/
def pyTruthyStr : Option String → Bool
  | none => false
  | some s => !s.isEmpty

/-- Python truthiness of an `int | None` value: `None` and `0` are falsy. -/
def pyTruthyInt : Option Int → Bool
  | none => false
  | some n => n != 0

/-- The relevant part of the JSON body returned by the provider status
endpoint `GET /v1/pods/id` (runpod.py line 169): the `publicIp` field
(nullable) and the `portMappings` dict, keyed by internal port. -/
structure PodStatus where
  publicIp : Option String
  portMappings : String → Option Int

/-- Embedding of `Pod._get_tcp_port` (runpod.py lines 160-179).
`data["portMappings"]["22"]` is a dict subscription and raises `KeyError`
when the key is absent; the GPU port correction subtracts 1 when
`self.gpu_count` is truthy. -/
def getTcpPort (gpu_count : Option Int) (st : PodStatus) :
    Except PyError (Option String × Option Int) :=
  if pyTruthyStr st.publicIp then
    match st.portMappings "22" with
    | none => Except.error (PyError.keyError "22")
    | some p =>
        Except.ok (st.publicIp, some (if pyTruthyInt gpu_count then p - 1 else p))
  else
    Except.ok (st.publicIp, none)

/-- Python's `str.strip()` with no argument: remove whitespace from both
ends of the string. -/
def pyStrip (s : String) : String :=
  String.mk
    (((s.data.dropWhile Char.isWhitespace).reverse.dropWhile Char.isWhitespace).reverse)

/-- Result of one remote command as observed by `Pod.execute`: the decoded
standard output, the decoded standard error, and the command's own exit
status (which the buffered path never consults). -/
structure CommandResult where
  out : String
  err : String
  exitStatus : Int

/-- Embedding of the buffered branch of `Pod.execute` (runpod.py lines
257-266, reached when `stream=False`): if the decoded error stream is
non-empty Python's `if error:` takes the failure path and the method
returns `None`; otherwise it returns `output.strip()`. -/
def executeBuffered (r : CommandResult) : Option String :=
  if !r.err.isEmpty then none else some (pyStrip r.out)

/-- Outcome of `Pod._wait_for_pod`: whether the ready condition was met,
the pair last assigned to `(self.public_ip, self.port)` (`none` when the
loop body never ran), and how many status checks were performed. -/
structure WaitOutcome where
  reached : Bool
  lastPoll : Option (Option String × Option Int)
  checks : Nat
deriving DecidableEq, Repr

/-- Loop body of `Pod._wait_for_pod` (runpod.py lines 146-158).  `statuses k`
is the result of the k-th call to `_get_tcp_port` (which may raise, see
`getTcpPort`); `elapsed` starts at 0 and grows by `interval` per iteration,
and the loop runs while `elapsed < timeout`.  `time.sleep` only spends real
time and is not modelled.  The positivity hypothesis on `interval` mirrors
the fact that the Python loop does not terminate when `interval = 0`. -/
def waitForPodGo (statuses : Nat → Except PyError (Option String × Option Int))
    (timeout interval : Nat) (hpos : 0 < interval)
    (elapsed k : Nat) (last : Option (Option String × Option Int)) :
    Except PyError WaitOutcome :=
  if _h : elapsed < timeout then
    match statuses k with
    | Except.error e => Except.error e
    | Except.ok s =>
        if pyTruthyStr s.1 && pyTruthyInt s.2 then
          Except.ok { reached := true, lastPoll := some s, checks := k + 1 }
        else
          waitForPodGo statuses timeout interval hpos (elapsed + interval) (k + 1) (some s)
  else
    Except.ok { reached := false, lastPoll := last, checks := k }
termination_by timeout - elapsed
decreasing_by omega

/-- Embedding of `Pod._wait_for_pod` (runpod.py lines 139-158): poll
`_get_tcp_port` every `interval` seconds until both address and port are
truthy or `elapsed` reaches `timeout`; on timeout it logs an error and
returns normally. -/
def waitForPod (statuses : Nat → Except PyError (Option String × Option Int))
    (timeout interval : Nat) (hpos : 0 < interval) : Except PyError WaitOutcome :=
  waitForPodGo statuses timeout interval hpos 0 0 none

/-- A status source that never reports an address (both fields `None`). -/
def neverReadyStatuses : Nat → Except PyError (Option String × Option Int) :=
  fun _ => Except.ok (none, none)

/-- A status source that reports address and port on the third check
(checks 0 and 1 see no address, check 2 sees one). -/
def readyOnThirdStatuses : Nat → Except PyError (Option String × Option Int) :=
  fun k => if k < 2 then Except.ok (none, none) else Except.ok (some "1.2.3.4", some 22)

/-- A pod summary as returned by the provider inventory (`runpod.get_pods`):
the fields `Pod.__init__` consults are `name` and `id`.  Provider ids are
modelled as naturals. -/
structure PodInfo where
  name : String
  id : Nat
deriving DecidableEq, Repr

/-- Model of the provider: its current inventory and a counter supplying
fresh provider ids. -/
structure ProviderState where
  inventory : List PodInfo
  nextId : Nat
deriving DecidableEq, Repr

/-- What one run of the attach-or-create logic produced: the provider state
afterwards, the pod whose id `Pod.__init__` adopts, and whether a creation
request (`runpod.create_pod`) was issued. -/
structure AttachResult where
  state : ProviderState
  pod : PodInfo
  created : Bool
deriving DecidableEq, Repr

/-- Embedding of `Pod._pod_exists` (runpod.py lines 131-137): true when some
pod in the inventory carries the given name (the empty-inventory branch and
`any` agree on `false`). -/
def pod_exists (inventory : List PodInfo) (name : String) : Bool :=
  inventory.any (fun p => p.name == name)

/-- Embedding of the attach-or-create step of `Pod.__init__` (runpod.py
lines 69-101).  When `_pod_exists` holds, the pod adopted is the first
inventory entry with the given name (Python's `next` over the generator);
otherwise `runpod.create_pod` is issued, which on the provider side
registers a new pod with a fresh id in the inventory and returns it.  The
`none` match arm is unreachable because `pod_exists` guarantees a match. -/
def attachOrCreate (st : ProviderState) (name : String) : AttachResult :=
  if pod_exists st.inventory name then
    match st.inventory.find? (fun p => p.name == name) with
    | some p => ⟨st, p, false⟩
    | none => ⟨st, ⟨name, st.nextId⟩, false⟩
  else
    let p : PodInfo := ⟨name, st.nextId⟩
    ⟨⟨st.inventory ++ [p], st.nextId + 1⟩, p, true⟩

/-- The class-level credential cache of `Pod` (runpod.py lines 22-25):
`_ssh_user`, `_ssh_key_path` and `_ssh_passphrase`, each `str | None` and
initially `None`. -/
structure CredState where
  user : Option String
  keyPath : Option String
  passphrase : Option String
deriving DecidableEq, Repr

/-- Embedding of `Pod._get_user_ssh` (runpod.py lines 103-129).  If all
three cached values are truthy the cache is returned and no prompt happens;
otherwise the key path and user are read from the environment (with the
source's defaults, the key path passed through `os.path.expanduser`), the
passphrase is collected interactively (`promptResult` is what the operator
types), and the cache is overwritten.  The returned flag records whether a
prompt occurred.  The source performs no filesystem access here: nothing
checks that the key path exists. -/
def getUserSsh (expanduser : String → String) (env : String → Option String)
    (promptResult : String) (st : CredState) : CredState × Bool :=
  if pyTruthyStr st.user && pyTruthyStr st.keyPath && pyTruthyStr st.passphrase then
    (st, false)
  else
    let ssh_key_path := expanduser ((env "RUNPOD_SSH_KEY_PATH").getD "~/.ssh/id_ed25519")
    let ssh_user := (env "RUNPOD_SSH_USER").getD "root"
    ({ user := some ssh_user, keyPath := some ssh_key_path,
       passphrase := some promptResult }, true)

/-- `n` successive credential resolutions (one per node instantiation in a
process), threading the class-level cache and counting interactive prompts;
`prompts j` is what the operator types at the j-th prompt. -/
def runResolutions (expanduser : String → String) (env : String → Option String)
    (prompts : Nat → String) : Nat → CredState → Nat → CredState × Nat
  | 0, st, count => (st, count)
  | n + 1, st, count =>
      let r := getUserSsh expanduser env (prompts count) st
      runResolutions expanduser env prompts n r.1 (count + (if r.2 then 1 else 0))

/-- The class body of `BashCommands` (constants.py lines 3-8) as a Python
attribute table.  It defines `GO_TO_APP`, `ACTIVATE` and `FINETUNE` — and
no `INFERENCE` entry. -/
def bashCommandsAttrs : List (String × String) :=
  [("GO_TO_APP", "cd .. && cd app"),
   ("ACTIVATE", "source .venv/bin/activate"),
   ("FINETUNE", "finetune")]

/-- Python class-attribute access: a missing attribute raises
`AttributeError`. -/
def classAttr (attrs : List (String × String)) (attr : String) : Except PyError String :=
  match attrs.lookup attr with
  | some v => Except.ok v
  | none => Except.error (PyError.attributeError attr)

/-- The shared command composition of `FinetunePod.finetune` (runpod.py
lines 308-322) and `InferencePod.infer` (lines 355-369): look up
`GO_TO_APP`, `ACTIVATE` and the role's entrypoint attribute on
`BashCommands` (in Python's left-to-right evaluation order of the list
literal), append the config path to the entrypoint, and join the three
pieces with the separator of `"&&".join`. -/
def composeRunCmd (entrypointAttr : String) (config_path : String) :
    Except PyError String := do
  let goToApp ← classAttr bashCommandsAttrs "GO_TO_APP"
  let activate ← classAttr bashCommandsAttrs "ACTIVATE"
  let entry ← classAttr bashCommandsAttrs entrypointAttr
  return String.intercalate "&&" [goToApp, activate, entry ++ " " ++ config_path]

/-- `FinetunePod.finetune(config_path)`: compose the command and execute it
with `stream=True` (the Bool in the result is the stream flag). -/
def finetuneRun (config_path : String) : Except PyError (String × Bool) :=
  (composeRunCmd "FINETUNE" config_path).map (fun c => (c, true))

/-- `InferencePod.infer(config_path)`: same composition but through the
(absent) `INFERENCE` attribute of `BashCommands`. -/
def inferRun (config_path : String) : Except PyError (String × Bool) :=
  (composeRunCmd "INFERENCE" config_path).map (fun c => (c, true))

/-- Modelled from the spec: the one-time startup script of the service node
(class `ZenMLHostPod`, which cli/dashboard.py and zenml.py import from
voice_orchestrator.runpod but whose definition is missing from src/) —
"activate environment, bring up a background service", joined like the
other role commands. -/
def startupScript (startService : String) : String :=
  String.intercalate "&&" ["source .venv/bin/activate", startService]

/-- Modelled from the spec: the service-node object the dashboard-tunnel
collaborator receives.  It exposes the reached address and port and the
resolved credentials (zenml.py and cli/dashboard.py read `public_ip`,
`port`, `ssh_user`, `ssh_key_path` and `passphrase`), and records the
remote commands it ran as (command, stream-flag) pairs. -/
structure ServiceNode where
  public_ip : Option String
  port : Option Int
  ssh_user : Option String
  ssh_key_path : Option String
  passphrase : Option String
  runs : List (String × Bool)
deriving DecidableEq, Repr

/-- Modelled from the spec: constructing the service node (`ZenMLHostPod`,
missing from src/): reach the pod through the readiness poll, adopt the
polled address and port, expose the resolver's credentials, and run the
one-time startup script once via buffered execution (stream flag false). -/
def mkZenMLHostPod (statuses : Nat → Except PyError (Option String × Option Int))
    (timeout interval : Nat) (hpos : 0 < interval)
    (creds : CredState) (startService : String) : Except PyError ServiceNode :=
  match waitForPod statuses timeout interval hpos with
  | Except.error e => Except.error e
  | Except.ok w =>
      let ip := match w.lastPoll with | some s => s.1 | none => none
      let port := match w.lastPoll with | some s => s.2 | none => none
      Except.ok { public_ip := ip, port := port, ssh_user := creds.user,
                  ssh_key_path := creds.keyPath, passphrase := creds.passphrase,
                  runs := [(startupScript startService, false)] }

/-- The SSH-tunnel arguments built by `main` in cli/dashboard.py (lines
36-44): host and port of the tunnel endpoint, then username, private key
and key password. -/
structure TunnelParams where
  ssh_host : Option String
  ssh_port : Option Int
  ssh_username : Option String
  ssh_private_key : Option String
  ssh_private_key_password : Option String
deriving DecidableEq, Repr

/-- How cli/dashboard.py (lines 27-44) feeds the service node into
`SSHTunnelForwarder`: the tunnel endpoint is the node's address and port,
and the SSH identity is the node's exposed credentials. -/
def dashboardTunnelParams (z : ServiceNode) : TunnelParams :=
  ⟨z.public_ip, z.port, z.ssh_user, z.ssh_key_path, z.passphrase⟩

/-- A status source that is ready from the first check on. -/
def alwaysReadyStatuses : Nat → Except PyError (Option String × Option Int) :=
  fun _ => Except.ok (some "1.2.3.4", some 22)

/-- C2: with a truthy public address and raw mapped port `p` for internal
port 22, a node with one or more GPUs gets effective remote-shell port
`p - 1`, while a GPU-less node (`gpu_count` of `None` or `0`) keeps `p`
unchanged; in particular raw port 22 gives 21 with a GPU and 22 without. -/
theorem gpu_port_correction (ip : Option String) (pm : String → Option Int) (p : Int)
    (hip : pyTruthyStr ip = true) (hpm : pm "22" = some p) :
    (∀ n : Int, 1 ≤ n →
      getTcpPort (some n) ⟨ip, pm⟩ = Except.ok (ip, some (p - 1))) ∧
    getTcpPort none ⟨ip, pm⟩ = Except.ok (ip, some p) ∧
    getTcpPort (some 0) ⟨ip, pm⟩ = Except.ok (ip, some p) := by
  refine ⟨fun n hn => ?_, ?_, ?_⟩ <;>
    simp [getTcpPort, hip, hpm, pyTruthyInt]
  omega

/-- Witness for `gpu_port_correction`: a GPU node with raw mapped port 22
ends up on port 21, a GPU-less node on port 22. -/
theorem gpu_port_correction_witness :
    getTcpPort (some 1) ⟨some "1.2.3.4", fun k => if k == "22" then some 22 else none⟩
      = Except.ok (some "1.2.3.4", some 21) ∧
    getTcpPort none ⟨some "1.2.3.4", fun k => if k == "22" then some 22 else none⟩
      = Except.ok (some "1.2.3.4", some 22) := by
  have h := gpu_port_correction (some "1.2.3.4")
    (fun k => if k == "22" then some 22 else none) 22 (by decide) (by decide)
  exact ⟨h.1 1 (by decide), h.2.1⟩

/-- C3: buffered execution returns the trimmed standard output when the error
stream is empty, and returns the failure marker `none` whenever any text
appears on the error stream, whatever the output text and exit status. -/
theorem buffered_stderr_policy (out err : String) (status : Int) :
    (err = "" → executeBuffered ⟨out, err, status⟩ = some (pyStrip out)) ∧
    (err ≠ "" → executeBuffered ⟨out, err, status⟩ = none) := by
  constructor <;> intro h <;>
    simp [executeBuffered, h, String.isEmpty_iff]

/-- Witness for `buffered_stderr_policy`: a command printing `ready` with an
empty error stream returns `"ready"`; the same output alongside error text
returns `none`, even with exit status 0. -/
theorem buffered_stderr_policy_witness :
    executeBuffered ⟨"ready\n", "", 0⟩ = some "ready" ∧
    executeBuffered ⟨"ready\n", "warning", 0⟩ = none := by
  constructor
  · exact ((buffered_stderr_policy "ready\n" "" 0).1 rfl).trans (by decide)
  · exact (buffered_stderr_policy "ready\n" "warning" 0).2 (by decide)

/-- Helper: a pod created under a fresh name is the first (and only) match
for that name in the extended inventory. -/
lemma find_append_fresh (inv : List PodInfo) (name : String) (p : PodInfo)
    (hp : p.name = name) (habs : inv.any (fun q => q.name == name) = false) :
    (inv ++ [p]).find? (fun q => q.name == name) = some p := by
  rw [List.find?_append]
  have hnone : inv.find? (fun q => q.name == name) = none := by
    rw [List.find?_eq_none]
    intro q hq
    have := List.any_eq_false.mp habs q hq
    simpa using this
  simp [hnone, List.find?, hp]

/-- C1: attach-or-create is idempotent by name: running it twice in sequence
against any provider state yields the same pod id both times, the second
run issues no creation request and leaves the provider state untouched, and
the pod is findable by name after the first run. -/
theorem attach_or_create_idempotent (st : ProviderState) (name : String) :
    (attachOrCreate (attachOrCreate st name).state name).pod.id
      = (attachOrCreate st name).pod.id ∧
    (attachOrCreate (attachOrCreate st name).state name).created = false ∧
    (attachOrCreate (attachOrCreate st name).state name).state
      = (attachOrCreate st name).state ∧
    pod_exists (attachOrCreate st name).state.inventory name = true := by
  by_cases hex : pod_exists st.inventory name = true
  · cases hfind : st.inventory.find? (fun p => p.name == name) with
    | none =>
        exfalso
        obtain ⟨q, hq, hqn⟩ := List.any_eq_true.mp hex
        exact absurd hqn (by simpa using List.find?_eq_none.mp hfind q hq)
    | some p =>
        simp [attachOrCreate, hex, hfind]
  · have hexb : pod_exists st.inventory name = false := by simpa using hex
    have hex2 : pod_exists (st.inventory ++ [(⟨name, st.nextId⟩ : PodInfo)]) name = true := by
      simp [pod_exists]
    have hfresh := find_append_fresh st.inventory name ⟨name, st.nextId⟩ rfl
      (by simpa [pod_exists] using hexb)
    simp [attachOrCreate, hexb, hex2, hfresh]

/-- Helper: when every status check succeeds without being ready, the wait
loop always returns normally in the timed-out state, and the fields it
leaves behind never form a reachable address/port pair. -/
lemma waitForPodGo_never_ready
    (statuses : Nat → Except PyError (Option String × Option Int))
    (timeout interval : Nat) (hpos : 0 < interval)
    (h : ∀ j, ∃ s, statuses j = Except.ok s ∧ (pyTruthyStr s.1 && pyTruthyInt s.2) = false) :
    ∀ (d elapsed k : Nat) (last : Option (Option String × Option Int)),
      timeout - elapsed ≤ d →
      (∀ s, last = some s → (pyTruthyStr s.1 && pyTruthyInt s.2) = false) →
      ∃ r, waitForPodGo statuses timeout interval hpos elapsed k last = Except.ok r ∧
        r.reached = false ∧
        ∀ s, r.lastPoll = some s → (pyTruthyStr s.1 && pyTruthyInt s.2) = false := by
  intro d
  induction d with
  | zero =>
    intro elapsed k last hd hlast
    have hnl : ¬ elapsed < timeout := by omega
    refine ⟨⟨false, last, k⟩, ?_, rfl, hlast⟩
    rw [waitForPodGo]
    simp [hnl]
  | succ d ih =>
    intro elapsed k last hd hlast
    by_cases hlt : elapsed < timeout
    · obtain ⟨s, hs, hsf⟩ := h k
      have hstep :
          waitForPodGo statuses timeout interval hpos elapsed k last
            = waitForPodGo statuses timeout interval hpos (elapsed + interval) (k + 1) (some s) := by
        rw [waitForPodGo]
        simp [hlt, hs, hsf]
      rw [hstep]
      exact ih (elapsed + interval) (k + 1) (some s) (by omega)
        (fun s' hs' => by cases hs'; exact hsf)
    · refine ⟨⟨false, last, k⟩, ?_, rfl, hlast⟩
      rw [waitForPodGo]
      simp [hlt]

/-- C4: if the poll never observes both an address and a port (every status
check succeeds but is not ready), the wait returns normally in the
timed-out state — no exception — and the address/port fields it leaves
behind never form a reachable pair. -/
theorem wait_timeout_returns_normally
    (statuses : Nat → Except PyError (Option String × Option Int))
    (timeout interval : Nat) (hpos : 0 < interval)
    (h : ∀ j, ∃ s, statuses j = Except.ok s ∧ (pyTruthyStr s.1 && pyTruthyInt s.2) = false) :
    ∃ r, waitForPod statuses timeout interval hpos = Except.ok r ∧
      r.reached = false ∧
      ∀ s, r.lastPoll = some s → (pyTruthyStr s.1 && pyTruthyInt s.2) = false := by
  exact waitForPodGo_never_ready statuses timeout interval hpos h timeout 0 0 none
    (by omega) (by intro s hs; cases hs)

/-- Witness for `wait_timeout_returns_normally`: a source that never reports
an address, with timeout 3 and interval 1. -/
theorem wait_timeout_returns_normally_witness :
    ∃ r, waitForPod neverReadyStatuses 3 1 (by decide) = Except.ok r ∧
      r.reached = false ∧
      ∀ s, r.lastPoll = some s → (pyTruthyStr s.1 && pyTruthyInt s.2) = false :=
  wait_timeout_returns_normally neverReadyStatuses 3 1 (by decide)
    (fun _ => ⟨(none, none), rfl, rfl⟩)

/-- C5: with timeout 10 and interval 2, a never-ready source is checked
exactly 5 times and the poll ends timed out without raising; a source that
becomes ready on the third check makes the poll return at that check, after
exactly 3 checks. -/
theorem poll_check_counts :
    waitForPod neverReadyStatuses 10 2 (by decide)
      = Except.ok ⟨false, some (none, none), 5⟩ ∧
    waitForPod readyOnThirdStatuses 10 2 (by decide)
      = Except.ok ⟨true, some (some "1.2.3.4", some 22), 3⟩ := by
  have hne : "1.2.3.4".isEmpty = false := by decide
  constructor <;>
    simp [waitForPod, waitForPodGo, neverReadyStatuses, readyOnThirdStatuses,
      pyTruthyStr, pyTruthyInt, hne]

/-- C6 counterexample: the claim that credential resolution prompts at most
once per process fails when the operator enters an empty passphrase — the
all-truthy cache check then fails on every call, so three successive node
instantiations prompt three times and overwrite the cache each time. -/
theorem cred_prompt_empty_passphrase_counterexample :
    (runResolutions id (fun _ => none) (fun _ => "") 3 ⟨none, none, none⟩ 0).2 = 3 := by
  decide

/-- C6 amended: the first resolution on an empty cache reads the
environment defaults and prompts once; and as long as the cached user, key
path and passphrase are all truthy (in particular non-empty), every further
resolution returns the cache unchanged and never prompts. -/
theorem cred_cache_after_first_resolution (expanduser : String → String)
    (env : String → Option String) (prompts : Nat → String) (p : String) :
    (getUserSsh expanduser env p ⟨none, none, none⟩ =
      ({ user := some ((env "RUNPOD_SSH_USER").getD "root"),
         keyPath := some (expanduser ((env "RUNPOD_SSH_KEY_PATH").getD "~/.ssh/id_ed25519")),
         passphrase := some p }, true)) ∧
    ∀ (st : CredState) (n count : Nat),
      (pyTruthyStr st.user && pyTruthyStr st.keyPath && pyTruthyStr st.passphrase) = true →
      runResolutions expanduser env prompts n st count = (st, count) := by
  constructor
  · simp [getUserSsh, pyTruthyStr]
  · intro st n
    induction n with
    | zero => intro count _; rfl
    | succ n ih =>
        intro count h
        simp only [runResolutions, getUserSsh, h]
        simpa using ih count h

/-- Witness for `cred_cache_after_first_resolution`: with default
environment and passphrase `pw`, the first resolution stores the defaults,
and two further resolutions on that cache add no prompt. -/
theorem cred_cache_after_first_resolution_witness :
    getUserSsh id (fun _ => none) "pw" ⟨none, none, none⟩ =
      ({ user := some "root", keyPath := some "~/.ssh/id_ed25519",
         passphrase := some "pw" }, true) ∧
    runResolutions id (fun _ => none) (fun _ => "pw") 2
        ⟨some "root", some "~/.ssh/id_ed25519", some "pw"⟩ 1 =
      (⟨some "root", some "~/.ssh/id_ed25519", some "pw"⟩, 1) := by
  have h := cred_cache_after_first_resolution id (fun _ => none) (fun _ => "pw") "pw"
  exact ⟨h.1, h.2 ⟨some "root", some "~/.ssh/id_ed25519", some "pw"⟩ 2 1 (by decide)⟩

/-- C7 counterexample: under a filesystem in which no file exists at all
(so in particular the key path does not exist), credential resolution still
returns normally, caching the missing path — it does not fail, with a
`CredentialError` or otherwise. -/
theorem cred_no_existence_check_counterexample :
    (fun _ : String => false) "~/.ssh/id_ed25519" = false ∧
    getUserSsh id (fun _ => none) "pw" ⟨none, none, none⟩ =
      ({ user := some "root", keyPath := some "~/.ssh/id_ed25519",
         passphrase := some "pw" }, true) := by
  constructor
  · rfl
  · decide

/-- C7 amended: credential resolution never fails: whatever the
environment, prompt input and cache state — and independently of any
filesystem, which it does not consult — it either returns the cache
untouched or stores exactly the environment-derived values; a missing key
file is first noticed only when a remote connection is attempted. -/
theorem cred_resolution_never_fails (expanduser : String → String)
    (env : String → Option String) (p : String) (st : CredState) :
    getUserSsh expanduser env p st = (st, false) ∨
    getUserSsh expanduser env p st =
      ({ user := some ((env "RUNPOD_SSH_USER").getD "root"),
         keyPath := some (expanduser ((env "RUNPOD_SSH_KEY_PATH").getD "~/.ssh/id_ed25519")),
         passphrase := some p }, true) := by
  by_cases h : (pyTruthyStr st.user && pyTruthyStr st.keyPath && pyTruthyStr st.passphrase) = true
  · exact Or.inl (by simp [getUserSsh, h])
  · exact Or.inr (by simp [getUserSsh, h])

/-- C8: the training role composes exactly working-directory change,
environment activation and the `finetune` entrypoint with the config path,
joined by the `&&` separator, and runs it in streaming mode; the inference
role's composition instead raises `AttributeError`, because constants.py
defines no `INFERENCE` command on `BashCommands`. -/
theorem run_command_composition :
    finetuneRun "cfg.yml" =
      Except.ok ("cd .. && cd app&&source .venv/bin/activate&&finetune cfg.yml", true) ∧
    inferRun "cfg.yml" = Except.error (PyError.attributeError "INFERENCE") := by
  constructor <;> rfl

/-- C9: when the readiness poll reaches the pod at address `a` and port
`p`, the service node construction succeeds, runs the one-time startup
script exactly once in buffered mode, and the dashboard tunnel is built
from exactly the node's address, port and resolver credentials. -/
theorem service_node_bootstrap_and_exposure
    (statuses : Nat → Except PyError (Option String × Option Int))
    (timeout interval : Nat) (hpos : 0 < interval)
    (creds : CredState) (startService : String) (a : String) (p : Int) (k : Nat)
    (hreach : waitForPod statuses timeout interval hpos
        = Except.ok ⟨true, some (some a, some p), k⟩) :
    ∃ z, mkZenMLHostPod statuses timeout interval hpos creds startService = Except.ok z ∧
      z.runs = [(startupScript startService, false)] ∧
      dashboardTunnelParams z =
        ⟨some a, some p, creds.user, creds.keyPath, creds.passphrase⟩ := by
  refine ⟨⟨some a, some p, creds.user, creds.keyPath, creds.passphrase,
    [(startupScript startService, false)]⟩, ?_, rfl, rfl⟩
  simp [mkZenMLHostPod, hreach]

/-- Witness for `service_node_bootstrap_and_exposure`: a source that is
ready immediately, timeout 5 and interval 1, concrete credentials and the
startup command `zenml up`. -/
theorem service_node_bootstrap_and_exposure_witness :
    ∃ z, mkZenMLHostPod alwaysReadyStatuses 5 1 (by decide)
        ⟨some "root", some "~/.ssh/id_ed25519", some "pw"⟩ "zenml up" = Except.ok z ∧
      z.runs = [(startupScript "zenml up", false)] ∧
      dashboardTunnelParams z =
        ⟨some "1.2.3.4", some 22, some "root", some "~/.ssh/id_ed25519", some "pw"⟩ := by
  apply service_node_bootstrap_and_exposure alwaysReadyStatuses 5 1 (by decide)
    ⟨some "root", some "~/.ssh/id_ed25519", some "pw"⟩ "zenml up" "1.2.3.4" 22 1
  have hne : "1.2.3.4".isEmpty = false := by decide
  rw [waitForPod, waitForPodGo]
  simp [alwaysReadyStatuses, pyTruthyStr, pyTruthyInt, hne]

/-- C10: whenever the status body carries a truthy public address, the port
lookup consults exactly the key "22" of the port-mapping table: if that key
is present the lookup returns a port, and if it is absent the lookup raises
`KeyError "22"`, which the readiness poll propagates instead of treating
the node as unresolved. -/
theorem port_lookup_key22 (gpu : Option Int) (ip : Option String)
    (pm : String → Option Int) (hip : pyTruthyStr ip = true) :
    (pm "22" = none →
      getTcpPort gpu ⟨ip, pm⟩ = Except.error (PyError.keyError "22") ∧
      ∀ (timeout interval : Nat) (hpos : 0 < interval), 0 < timeout →
        waitForPod (fun _ => getTcpPort gpu ⟨ip, pm⟩) timeout interval hpos
          = Except.error (PyError.keyError "22")) ∧
    ∀ p, pm "22" = some p → ∃ q, getTcpPort gpu ⟨ip, pm⟩ = Except.ok (ip, some q) := by
  constructor
  · intro h22
    have herr : getTcpPort gpu ⟨ip, pm⟩ = Except.error (PyError.keyError "22") := by
      simp [getTcpPort, hip, h22]
    refine ⟨herr, fun timeout interval hpos ht => ?_⟩
    rw [waitForPod, waitForPodGo]
    simp [ht, herr]
  · intro p hp
    exact ⟨if pyTruthyInt gpu then p - 1 else p, by simp [getTcpPort, hip, hp]⟩

/-- Witness for `port_lookup_key22`: a node with address and an empty
port-mapping table makes the lookup and the poll raise `KeyError "22"`;
with the entry present the lookup returns a port. -/
theorem port_lookup_key22_witness :
    getTcpPort none ⟨some "1.2.3.4", fun _ => none⟩
      = Except.error (PyError.keyError "22") ∧
    waitForPod (fun _ => getTcpPort none ⟨some "1.2.3.4", fun _ => none⟩) 5 1 (by decide)
      = Except.error (PyError.keyError "22") ∧
    ∃ q, getTcpPort none ⟨some "1.2.3.4", fun _ => some 22⟩
      = Except.ok (some "1.2.3.4", some q) := by
  have h1 := port_lookup_key22 none (some "1.2.3.4") (fun _ => none) (by decide)
  have h2 := port_lookup_key22 none (some "1.2.3.4") (fun _ => some 22) (by decide)
  exact ⟨(h1.1 rfl).1, (h1.1 rfl).2 5 1 (by decide) (by decide), h2.2 22 rfl⟩
